import Mathlib

/-!
# level-ip: socket layer (`src/inet.c`) and preload shim (`tools/liblevelip.c`)

A shallow embedding of the two C files and the properties proved about them.

Conventions of the embedding

* A C `int` is an `Int`; a `size_t` is a `Nat`.  Where C converts a signed value to
  `size_t` before comparing, the conversion is written out as `% 2 ^ 64`; where it
  stores a `size_t` sum in an `int`, the value is reduced modulo `2 ^ 32` into the
  range of `int`.
* A pointer that may be `NULL` is an `Option`; dereferencing `NULL` makes the
  function return `none`, and so does any other undefined behaviour (reading a freed
  list node, an array of non-positive size, a read past the end of a buffer).
* Function pointers reached through `sk->ops` are passed as a record of functions
  (`net_ops`); each takes the `struct sock` it is given and returns the updated
  `struct sock` together with its C return value.
* Every call that leaves the file (protocol operations, `wait_sleep`, `socket_free`,
  `sk_alloc`, `sock_init_data`) is appended to a log, so that "invoked exactly once"
  and "not invoked" are statements about that log.
-/

namespace LevelIp

/-! ## Constants from the system headers (Linux values) -/

def AF_UNSPEC : Int := 0
def AF_UNIX : Int := 1
def AF_INET : Int := 2
def SOCK_STREAM : Int := 1
def SOCK_NONBLOCK : Int := 2048
def SOCK_CLOEXEC : Int := 524288
def IPPROTO_TCP : Int := 6
def IPPROTO_UDP : Int := 17

def EINVAL : Int := 22
def ENOPROTOOPT : Int := 92
def ECONNRESET : Int := 104
def EISCONN : Int := 106
def ETIMEDOUT : Int := 110
def ECONNREFUSED : Int := 111
def EALREADY : Int := 114
def EINPROGRESS : Int := 115

/-- Width in bits of `size_t` on the LP64 targets the program is built for. -/
def SIZE_T_BITS : Nat := 64

/-- The value of `sizeof(addr->sa_family)`: `sa_family_t` is an `unsigned short`. -/
def SIZEOF_SA_FAMILY : Nat := 2

/-- C's usual arithmetic conversion of an `int` to `size_t`: reduction modulo `2 ^ 64`. -/
def int_to_size_t (x : Int) : Nat := (x % (2 : Int) ^ SIZE_T_BITS).toNat

/-! ## `enum socket_state` (socket.h) and `enum tcp_states` (tcp.h) -/

def SS_FREE : Int := 0
def SS_UNCONNECTED : Int := 1
def SS_CONNECTING : Int := 2
def SS_CONNECTED : Int := 3
def SS_DISCONNECTING : Int := 4

def TCP_LISTEN : Int := 0
def TCP_SYN_SENT : Int := 1
def TCP_SYN_RECEIVED : Int := 2
def TCP_ESTABLISHED : Int := 3
def TCP_FIN_WAIT_1 : Int := 4
def TCP_FIN_WAIT_2 : Int := 5
def TCP_CLOSE : Int := 6
def TCP_CLOSE_WAIT : Int := 7
def TCP_CLOSING : Int := 8
def TCP_LAST_ACK : Int := 9
def TCP_TIME_WAIT : Int := 10

/-! ## Data model of `inet.c` -/

/-- A `struct sockaddr` as far as the socket layer reads it. -/
structure sockaddr where
  sa_family : Int
  sa_data : List Nat
  deriving DecidableEq, Repr

/-- The fields of `struct sock` that `inet.c` reads or writes (`protocol`, `state`,
`err`); `tcb` stands for everything else the protocol keeps in the block. -/
structure sock where
  protocol : Int
  state : Int
  err : Int
  tcb : Nat
  deriving DecidableEq, Repr

/-- The vtables a `struct socket` can point to through `sock->ops`. -/
inductive sock_ops where
  | inet_stream_ops
  deriving DecidableEq, Repr

/-- The protocol vtables a `struct sock_type` can name. -/
inductive net_ops_id where
  | tcp_ops
  deriving DecidableEq, Repr

/-- A `struct socket`: `sk` is the pointer to the attached `struct sock`, held by value. -/
structure socket where
  type : Int
  state : Int
  ops : Option sock_ops
  sk : Option sock
  deriving DecidableEq, Repr

/-- The protocol operations reached through `sk->ops`. -/
structure net_ops where
  connect : sock → sockaddr → Int → Int → sock × Int
  disconnect : sock → Int → sock × Int
  close : sock → sock × Int
  abort : sock → sock × Int

/-- Calls that leave `inet.c`, in the order they were made. -/
inductive Call where
  | connect (addr : sockaddr) (addr_len flags : Int)
  | disconnect (flags : Int)
  | close
  | abort
  | wait_sleep
  | socket_free
  | sk_alloc (ops : net_ops_id) (protocol : Int)
  | sock_init_data
  deriving DecidableEq, Repr

/-- What a socket-layer function leaves behind: its return value, the socket and the
calls it made. -/
structure Outcome where
  rc : Int
  sock : socket
  calls : List Call
  deriving DecidableEq, Repr

/-- One row of the `inet_ops` table. -/
structure sock_type where
  sock_ops : sock_ops
  net_ops : net_ops_id
  type : Int
  protocol : Int
  deriving DecidableEq, Repr

def INET_OPS : Nat := 1

def inet_ops : List sock_type :=
  [ { sock_ops := sock_ops.inet_stream_ops, net_ops := net_ops_id.tcp_ops,
      type := SOCK_STREAM, protocol := IPPROTO_TCP } ]

/-- Modelled from the spec: `sock_init_data` is defined in sock.c, which is not part of
the sources at hand; the socket object owns its control block (sections 3 and 9), so
the call is taken to attach `sk` to the socket and to leave its other fields alone. -/
def sock_init_data (s : socket) (sk : sock) : socket :=
  { s with sk := some sk }

/-- The function `inet_create` of inet.c; `sk_alloc` is the allocator of sock.c. -/
def inet_create (sk_alloc : net_ops_id → Int → sock) (s : socket) (protocol : Int) : Outcome :=
  match (inet_ops.take INET_OPS).find? (fun e => decide (Int.land e.type s.type ≠ 0)) with
  | none => { rc := 1, sock := s, calls := [] }
  | some skt =>
    let s1 : socket := { s with ops := some skt.sock_ops }
    let sk0 := sk_alloc skt.net_ops protocol
    let sk : sock := { sk0 with protocol := protocol }
    { rc := 0, sock := sock_init_data s1 sk,
      calls := [Call.sk_alloc skt.net_ops protocol, Call.sock_init_data] }

/-- The function `inet_stream_connect` of inet.c.  `wait` is what the other threads do
to the control block while the caller sleeps in `wait_sleep`. -/
def inet_stream_connect (ops : net_ops) (wait : sock → sock) (s : socket)
    (addr : sockaddr) (addr_len flags : Int) : Option Outcome :=
  if int_to_size_t addr_len < SIZEOF_SA_FAMILY then
    some { rc := -EINVAL, sock := s, calls := [] }
  else
    match s.sk with
    | none => none
    | some sk =>
      if addr.sa_family = AF_UNSPEC then
        let sk1 := (ops.disconnect sk flags).1
        let st := if sk1.err ≠ 0 then SS_DISCONNECTING else SS_UNCONNECTED
        some { rc := sk1.err, sock := { s with state := st, sk := some sk1 },
               calls := [Call.disconnect flags] }
      else if s.state = SS_CONNECTED then
        let sk1 : sock := { sk with err := -EISCONN }
        some { rc := sk1.err, sock := { s with sk := some sk1 }, calls := [] }
      else if s.state = SS_CONNECTING then
        let sk1 : sock := { sk with err := -EALREADY }
        some { rc := sk1.err, sock := { s with sk := some sk1 }, calls := [] }
      else if s.state = SS_UNCONNECTED then
        let sk1 : sock := { sk with err := -EISCONN }
        if sk1.state ≠ TCP_CLOSE then
          some { rc := sk1.err, sock := { s with sk := some sk1 }, calls := [] }
        else
          let sk2 := (ops.connect sk1 addr addr_len flags).1
          let sk3 : sock := { sk2 with err := -EINPROGRESS }
          let sk4 := wait sk3
          let s1 : socket := { s with state := SS_CONNECTING, sk := some sk4 }
          let log := [Call.connect addr addr_len flags, Call.wait_sleep]
          if sk4.err = -ETIMEDOUT ∨ sk4.err = -ECONNREFUSED then
            some { rc := sk4.err, sock := s1, calls := log ++ [Call.socket_free] }
          else if sk4.err ≠ 0 then
            some { rc := sk4.err, sock := s1, calls := log }
          else
            some { rc := sk4.err, sock := { s1 with state := SS_CONNECTED }, calls := log }
      else
        let sk1 : sock := { sk with err := -EINVAL }
        some { rc := sk1.err, sock := { s with sk := some sk1 }, calls := [] }

/-- The function `inet_close` of inet.c, for a non-`NULL` socket pointer. -/
def inet_close (ops : net_ops) (s : socket) : Option Outcome :=
  match s.sk with
  | none => none
  | some sk =>
    let s1 : socket := { s with state := SS_DISCONNECTING }
    let sk1 := (ops.close sk).1
    some { rc := sk1.err, sock := { s1 with sk := some sk1 }, calls := [Call.close] }

/-- The function `inet_abort` of inet.c. -/
def inet_abort (ops : net_ops) (s : socket) : Outcome :=
  match s.sk with
  | some sk =>
    { rc := 0, sock := { s with sk := some (ops.abort sk).1 }, calls := [Call.abort] }
  | none => { rc := 0, sock := s, calls := [] }

/-! ## Data model of `liblevelip.c` -/

/-- The function `is_socket_supported` of liblevelip.c. -/
def is_socket_supported (domain type protocol : Int) : Int :=
  if domain ≠ AF_INET then 0
  else if Int.land type SOCK_STREAM = 0 then 0
  else if protocol ≠ 0 ∧ protocol ≠ IPPROTO_TCP then 0
  else 1


/-! ### The shim's state and its environment

The shim forwards calls either to the host C library (the `dlsym`-resolved `_socket`,
`_read`, ...) or to the lvl-ip daemon over a UNIX socket.  The host is an abstract state
`σ` with one transition per host function.  A request written to, and a reply read from,
an lvl-ip channel are kept as records rather than as packed bytes: `ipc_write` and
`ipc_read` are the host `_write` and `_read` applied to such a channel. -/

def RCBUF_LEN : Nat := 512

def IPC_SOCKET : Int := 1
def IPC_CONNECT : Int := 2
def IPC_WRITE : Int := 3
def IPC_READ : Int := 4
def IPC_CLOSE : Int := 5

/-- The payload that follows the `struct ipc_msg` header of a request. -/
inductive ipc_payload where
  | ipc_socket (domain type protocol : Int)
  | ipc_connect (sockfd : Int) (addr : sockaddr) (addrlen : Int)
  | ipc_write (sockfd : Int) (len : Nat) (buf : List Nat)
  | ipc_read (sockfd : Int) (len : Nat)
  | ipc_close (sockfd : Int)
  deriving DecidableEq, Repr

/-- A request: `struct ipc_msg` header and payload. -/
structure ipc_msg where
  type : Int
  pid : Int
  data : ipc_payload
  deriving DecidableEq, Repr

/-- A reply as the shim reads it back: the `struct ipc_msg` header (`type`, `pid`), the
`struct ipc_err` that follows (`rc`, `err`) and, for a read, the `struct ipc_read`
after that (`len`, `buf`).  `len` is an `Int` so that both a signed and an unsigned
declaration of the field are covered. -/
structure ipc_reply where
  type : Int
  pid : Int
  rc : Int
  err : Int
  len : Int
  buf : List Nat
  deriving DecidableEq, Repr

/-- A `struct lvlip_sock` node of the list `lvlip_socks`.  `freed` records that
`lvlip_free` has released the node's memory while the node is still linked. -/
structure lvlip_sock where
  lvlfd : Int
  fd : Int
  freed : Bool := false
  deriving DecidableEq, Repr

/-- What a walk of `lvlip_socks` comes back with: `NULL`, a pointer to the entry found,
or nothing defined at all because the walk read a node whose memory had been freed. -/
inductive sock_ptr where
  | NULL
  | found (sock : lvlip_sock)
  | undefined
  deriving DecidableEq, Repr

/-- The host C library and kernel, and the lvl-ip daemon behind its channels. -/
structure Host (σ : Type) where
  _socket : σ → Int → Int → Int → Int × σ
  _connect : σ → Int → sockaddr → Int → Int × σ
  _close : σ → Int → Int × σ
  _read : σ → Int → List Nat → Nat → (Int × List Nat) × σ
  _write : σ → Int → List Nat → Nat → Int × σ
  _sendto : σ → Int → List Nat → Nat → Int → Option sockaddr → Int → Int × σ
  _recvfrom : σ → Int → List Nat → Nat → Int → Option sockaddr → Option Int →
    (Int × List Nat) × σ
  _setsockopt : σ → Int → Int → Int → List Nat → Int → Int × σ
  _getsockopt : σ → Int → Int → Int → List Nat → Int → (Int × List Nat) × σ
  _fcntl : σ → Int → Int → Int → Int × σ
  getpid : σ → Int
  ipc_write : σ → Int → ipc_msg → Int × σ
  ipc_read : σ → Int → Nat → (Int × ipc_reply) × σ

/-- The shim's globals (`lvlip_socks`, `lvlip_socks_count`), `errno`, the host state and
the requests sent to lvl-ip so far (channel descriptor and message, oldest first). -/
structure Shim (σ : Type) where
  lvlip_socks : List lvlip_sock
  lvlip_socks_count : Int
  errno : Int
  host : σ
  ipc_sent : List (Int × ipc_msg)

/-- The loop `list_for_each` of `lvlip_get_sock`: it reads `sock->fd` of each node in
turn, which is undefined on a freed node, and stops at the first entry with that fd. -/
def lvlip_walk : List lvlip_sock → Int → sock_ptr
  | [], _ => sock_ptr.NULL
  | sock :: rest, fd =>
    if sock.freed then sock_ptr.undefined
    else if sock.fd = fd then sock_ptr.found sock
    else lvlip_walk rest fd

/-- The function `lvlip_get_sock` of liblevelip.c: the first list entry with that fd. -/
def lvlip_get_sock {σ : Type} (st : Shim σ) (fd : Int) : sock_ptr :=
  lvlip_walk st.lvlip_socks fd

/-- The function `init_socket` of liblevelip.c; `none` is `exit(EXIT_FAILURE)`. -/
def init_socket {σ : Type} (H : Host σ) (st : Shim σ) (sockname : String) :
    Option (Int × Shim σ) :=
  let r1 := H._socket st.host AF_UNIX SOCK_STREAM 0
  if r1.1 = -1 then none
  else
    let addr : sockaddr := { sa_family := AF_UNIX, sa_data := sockname.toList.map Char.toNat }
    let r2 := H._connect r1.2 r1.1 addr 110
    if r2.1 = -1 then none
    else some (r1.1, { st with host := r2.2 })

/-- The function `transmit_lvlip` of liblevelip.c. -/
def transmit_lvlip {σ : Type} (H : Host σ) (st : Shim σ) (lvlfd : Int) (msg : ipc_msg) :
    Int × Shim σ :=
  let w := H.ipc_write st.host lvlfd msg
  let r := H.ipc_read w.2 lvlfd RCBUF_LEN
  let response := r.1.2
  let st1 : Shim σ := { st with host := r.2, ipc_sent := st.ipc_sent ++ [(lvlfd, msg)] }
  if response.type ≠ msg.type ∨ response.pid ≠ msg.pid then (-1, st1)
  else if response.rc = -1 then (response.rc, { st1 with errno := response.err })
  else (response.rc, st1)

/-- Modelled from the spec: `lvlip_alloc` is declared in liblevelip.h, which is not
part of the sources at hand; it is taken to return a zero-filled `struct lvlip_sock`. -/
def lvlip_alloc : lvlip_sock := { lvlfd := 0, fd := 0 }

/-- The assignment `sock->fd = sockfd` on the entry `socket` appended last. -/
def set_last_fd (l : List lvlip_sock) (sockfd : Int) : List lvlip_sock :=
  match l.getLast? with
  | none => l
  | some sock => l.dropLast ++ [{ sock with fd := sockfd }]

/-- Modelled from the spec: `lvlip_free` is declared in liblevelip.h, which is not
part of the sources at hand; it is taken to release the memory of the node it is given.
Here it is applied to the entry appended last, which stays linked into the list. -/
def free_last (l : List lvlip_sock) : List lvlip_sock :=
  match l.getLast? with
  | none => l
  | some sock => l.dropLast ++ [{ sock with freed := true }]

/-- Whether `list_add_tail` would write to a freed node: it stores the new node in the
`next` field of the current tail. -/
def tail_freed (l : List lvlip_sock) : Bool :=
  match l.getLast? with
  | none => false
  | some sock => sock.freed

/-- The function `socket` of liblevelip.c; `none` is `exit(EXIT_FAILURE)` in
`init_socket`, or undefined behaviour (`list_add_tail` behind a freed tail).  On the
failure path `lvlip_free(sock)` releases the node without unlinking it: the entry stays
in `lvlip_socks`, marked `freed`. -/
def socket_shim {σ : Type} (H : Host σ) (st : Shim σ) (domain type protocol : Int) :
    Option (Int × Shim σ) :=
  if is_socket_supported domain type protocol = 0 then
    let r := H._socket st.host domain type protocol
    some (r.1, { st with host := r.2 })
  else
    match init_socket H st "/tmp/lvlip.socket" with
    | none => none
    | some (lvlfd, st1) =>
      if tail_freed st1.lvlip_socks then none
      else
        let sock : lvlip_sock := { lvlip_alloc with lvlfd := lvlfd }
        let st2 : Shim σ := { st1 with lvlip_socks := st1.lvlip_socks ++ [sock],
                                       lvlip_socks_count := st1.lvlip_socks_count + 1 }
        let pid := H.getpid st2.host
        let msg : ipc_msg :=
          { type := IPC_SOCKET, pid := pid,
            data := ipc_payload.ipc_socket domain type protocol }
        let t := transmit_lvlip H st2 sock.lvlfd msg
        if t.1 = -1 then some (-1, { t.2 with lvlip_socks := free_last t.2.lvlip_socks })
        else some (t.1, { t.2 with lvlip_socks := set_last_fd t.2.lvlip_socks t.1 })

/-- C's `memset(buf, c, n)` on a buffer of at least `n` bytes. -/
def memset (buf : List Nat) (c : Nat) (n : Nat) : List Nat :=
  List.replicate n c ++ buf.drop n

/-- C's `memcpy(dst, src, n)` on buffers of at least `n` bytes. -/
def memcpy (dst src : List Nat) (n : Nat) : List Nat :=
  src.take n ++ dst.drop n

/-- The `len` bytes of `rbuf` that follow the three headers (`len` being what `rlen`
leaves for them): `rbuf` is zero-filled before the reply is read into it, so a shorter
payload is followed by zeros. -/
def reply_region (response : ipc_reply) (len : Nat) : List Nat :=
  response.buf.take len ++ List.replicate (len - response.buf.length) 0

/-- Sizes of the packed structs of ipc.h: `ipc_msg` is a `uint16_t` and a `pid_t`,
`ipc_err` two `int`s, `ipc_read` and `ipc_write` an `int` and a `size_t`. -/
def SIZEOF_IPC_MSG : Nat := 6
def SIZEOF_IPC_ERR : Nat := 8
def SIZEOF_IPC_READ : Nat := 12
def SIZEOF_IPC_WRITE : Nat := 12

/-- The sum `sizeof(struct ipc_msg) + sizeof(struct ipc_err) + sizeof(struct ipc_read)`
of the packed headers in front of the bytes of a read reply. -/
def IPC_READ_HDR : Nat := SIZEOF_IPC_MSG + SIZEOF_IPC_ERR + SIZEOF_IPC_READ

/-- Width in bits of `int`. -/
def INT_BITS : Nat := 32

/-- Conversion of a `size_t` value to `int`: reduction modulo `2 ^ 32` into the range
of `int` (two's complement, as gcc and clang define it). -/
def size_t_to_int (x : Nat) : Int :=
  if x % 2 ^ INT_BITS < 2 ^ (INT_BITS - 1) then ((x % 2 ^ INT_BITS : Nat) : Int)
  else ((x % 2 ^ INT_BITS : Nat) : Int) - 2 ^ INT_BITS

/-- The value of `int rlen = sizeof(struct ipc_msg) + sizeof(struct ipc_err) +
sizeof(struct ipc_read) + len` in `read`: the sum is formed in `size_t` and then stored
in an `int`. -/
def read_rlen (len : Nat) : Int :=
  size_t_to_int ((IPC_READ_HDR + len) % 2 ^ SIZE_T_BITS)

/-- The value of `int msglen = sizeof(struct ipc_msg) + sizeof(struct ipc_write) + len`
in `write`. -/
def write_msglen (len : Nat) : Int :=
  size_t_to_int ((SIZEOF_IPC_MSG + SIZEOF_IPC_WRITE + len) % 2 ^ SIZE_T_BITS)

/-- The function `read` of liblevelip.c.  `buf` is the caller's buffer, of `len` bytes;
the result is the return value, the buffer afterwards and the new state.  `none` is
undefined behaviour: a lookup that walks a freed node, a reply buffer `char rbuf[rlen]`
of non-positive size, or a read past the end of `rbuf`, which has `rlen` bytes. -/
def read {σ : Type} (H : Host σ) (st : Shim σ) (sockfd : Int) (buf : List Nat) (len : Nat) :
    Option ((Int × List Nat) × Shim σ) :=
  match lvlip_get_sock st sockfd with
  | sock_ptr.undefined => none
  | sock_ptr.NULL =>
    let r := H._read st.host sockfd buf len
    some (r.1, { st with host := r.2 })
  | sock_ptr.found sock =>
    let pid := H.getpid st.host
    let msg : ipc_msg := { type := IPC_READ, pid := pid, data := ipc_payload.ipc_read sockfd len }
    let w := H.ipc_write st.host sock.lvlfd msg
    let rlen := read_rlen len
    if rlen ≤ 0 then none
    else
      let r := H.ipc_read w.2 sock.lvlfd rlen.toNat
      let response := r.1.2
      let st1 : Shim σ :=
        { st with host := r.2, ipc_sent := st.ipc_sent ++ [(sock.lvlfd, msg)] }
      if rlen < (SIZEOF_IPC_MSG : Int) then none
      else if response.type ≠ IPC_READ ∨ response.pid ≠ pid then some ((-1, buf), st1)
      else if rlen < ((SIZEOF_IPC_MSG + SIZEOF_IPC_ERR : Nat) : Int) then none
      else if response.rc < 0 then
        some ((response.rc, buf), { st1 with errno := response.err })
      else if rlen < (IPC_READ_HDR : Int) then none
      else if response.len < 0 ∨ (len : Int) < response.len then some ((-1, buf), st1)
      else
        let avail := rlen.toNat - IPC_READ_HDR
        if avail < response.len.toNat then none
        else
          let buf1 := memset buf 0 len
          let buf2 := memcpy buf1 (reply_region response avail) response.len.toNat
          some ((response.len, buf2), st1)

/-- The function `free_socket` of liblevelip.c. -/
def free_socket {σ : Type} (H : Host σ) (st : Shim σ) (lvlfd : Int) : Int × Shim σ :=
  let r := H._close st.host lvlfd
  (r.1, { st with host := r.2 })

/-- The function `close` of liblevelip.c; `none` is a lookup that walks a freed node. -/
def close {σ : Type} (H : Host σ) (st : Shim σ) (fd : Int) : Option (Int × Shim σ) :=
  match lvlip_get_sock st fd with
  | sock_ptr.undefined => none
  | sock_ptr.NULL =>
    let r := H._close st.host fd
    some (r.1, { st with host := r.2 })
  | sock_ptr.found sock =>
    let pid := H.getpid st.host
    let msg : ipc_msg := { type := IPC_CLOSE, pid := pid, data := ipc_payload.ipc_close fd }
    let t := transmit_lvlip H st sock.lvlfd msg
    let f := free_socket H t.2 sock.lvlfd
    some (t.1, f.2)

/-- The function `connect` of liblevelip.c; `none` is a lookup that walks a freed
node. -/
def connect {σ : Type} (H : Host σ) (st : Shim σ) (sockfd : Int) (addr : sockaddr)
    (addrlen : Int) : Option (Int × Shim σ) :=
  match lvlip_get_sock st sockfd with
  | sock_ptr.undefined => none
  | sock_ptr.NULL =>
    let r := H._connect st.host sockfd addr addrlen
    some (r.1, { st with host := r.2 })
  | sock_ptr.found sock =>
    let pid := H.getpid st.host
    let msg : ipc_msg :=
      { type := IPC_CONNECT, pid := pid, data := ipc_payload.ipc_connect sockfd addr addrlen }
    some (transmit_lvlip H st sock.lvlfd msg)

/-- The function `write` of liblevelip.c; `none` is undefined behaviour: a lookup that
walks a freed node, or a message block `alloca(msglen)` that the wrapped `int msglen`
makes smaller than the bytes copied into it (or, when negative, larger than any
stack). -/
def write {σ : Type} (H : Host σ) (st : Shim σ) (sockfd : Int) (buf : List Nat) (len : Nat) :
    Option (Int × Shim σ) :=
  match lvlip_get_sock st sockfd with
  | sock_ptr.undefined => none
  | sock_ptr.NULL =>
    let r := H._write st.host sockfd buf len
    some (r.1, { st with host := r.2 })
  | sock_ptr.found sock =>
    let msglen := write_msglen len
    if msglen < 0 ∨ msglen < ((SIZEOF_IPC_MSG + SIZEOF_IPC_WRITE + len : Nat) : Int) then none
    else
      let pid := H.getpid st.host
      let msg : ipc_msg :=
        { type := IPC_WRITE, pid := pid,
          data := ipc_payload.ipc_write sockfd len (buf.take len) }
      some (transmit_lvlip H st sock.lvlfd msg)

/-- The function `sendto` of liblevelip.c. -/
def sendto {σ : Type} (H : Host σ) (st : Shim σ) (fd : Int) (buf : List Nat) (len : Nat)
    (flags : Int) (dest_addr : Option sockaddr) (dest_len : Int) : Option (Int × Shim σ) :=
  match lvlip_get_sock st fd with
  | sock_ptr.undefined => none
  | sock_ptr.NULL =>
    let r := H._sendto st.host fd buf len flags dest_addr dest_len
    some (r.1, { st with host := r.2 })
  | sock_ptr.found _ => write H st fd buf len

/-- The function `recvfrom` of liblevelip.c. -/
def recvfrom {σ : Type} (H : Host σ) (st : Shim σ) (fd : Int) (buf : List Nat) (len : Nat)
    (flags : Int) (address : Option sockaddr) (addrlen : Option Int) :
    Option ((Int × List Nat) × Shim σ) :=
  match lvlip_get_sock st fd with
  | sock_ptr.undefined => none
  | sock_ptr.NULL =>
    let r := H._recvfrom st.host fd buf len flags address addrlen
    some (r.1, { st with host := r.2 })
  | sock_ptr.found _ => read H st fd buf len

/-- The function `setsockopt` of liblevelip.c. -/
def setsockopt {σ : Type} (H : Host σ) (st : Shim σ) (fd level optname : Int)
    (optval : List Nat) (optlen : Int) : Option (Int × Shim σ) :=
  match lvlip_get_sock st fd with
  | sock_ptr.undefined => none
  | sock_ptr.NULL =>
    let r := H._setsockopt st.host fd level optname optval optlen
    some (r.1, { st with host := r.2 })
  | sock_ptr.found _ => some (-1, { st with errno := ENOPROTOOPT })

/-- The function `getsockopt` of liblevelip.c. -/
def getsockopt {σ : Type} (H : Host σ) (st : Shim σ) (fd level optname : Int)
    (optval : List Nat) (optlen : Int) : Option ((Int × List Nat) × Shim σ) :=
  match lvlip_get_sock st fd with
  | sock_ptr.undefined => none
  | sock_ptr.NULL =>
    let r := H._getsockopt st.host fd level optname optval optlen
    some (r.1, { st with host := r.2 })
  | sock_ptr.found _ => some ((-1, optval), { st with errno := ENOPROTOOPT })

/-- The function `fcntl` of liblevelip.c; `arg` is the one variadic argument it reads. -/
def fcntl {σ : Type} (H : Host σ) (st : Shim σ) (fildes cmd arg : Int) :
    Option (Int × Shim σ) :=
  match lvlip_get_sock st fildes with
  | sock_ptr.undefined => none
  | sock_ptr.NULL =>
    let r := H._fcntl st.host fildes cmd arg
    some (r.1, { st with host := r.2 })
  | sock_ptr.found _ => some (-1, { st with errno := EINVAL })

/-! ## Sample inputs -/

/-- Protocol operations that leave the control block as it is and return 0. -/
def idle_ops : net_ops :=
  { connect := fun sk _ _ _ => (sk, 0),
    disconnect := fun sk _ => (sk, 0),
    close := fun sk => (sk, 0),
    abort := fun sk => (sk, 0) }

/-- Protocol operations that leave the control block as it is and report failure. -/
def failing_ops : net_ops :=
  { connect := fun sk _ _ _ => (sk, -1),
    disconnect := fun sk _ => (sk, -1),
    close := fun sk => (sk, -1),
    abort := fun sk => (sk, -1) }

/-- A TCP control block in the given state with the given latched error. -/
def sample_sk (state err : Int) : sock :=
  { protocol := IPPROTO_TCP, state := state, err := err, tcb := 0 }

/-- A stream socket in the given socket state with the given control block. -/
def sample_socket (state : Int) (sk : Option sock) : socket :=
  { type := SOCK_STREAM, state := state, ops := some sock_ops.inet_stream_ops, sk := sk }

/-- An `AF_INET` address (its `sizeof` is 16). -/
def sample_addr : sockaddr := { sa_family := AF_INET, sa_data := [0, 80, 10, 0, 0, 5] }

/-- The peer answers the SYN: the sleeping caller finds `err = 0` and ESTABLISHED. -/
def wait_established (sk : sock) : sock := { sk with err := 0, state := TCP_ESTABLISHED }

/-- The peer answers with RST: the sleeping caller finds `-ECONNREFUSED` and CLOSE. -/
def wait_refused (sk : sock) : sock := { sk with err := -ECONNREFUSED, state := TCP_CLOSE }

/-- The control block the caller of `inet_stream_connect` finds when it wakes up: the
block it entered with, after the guard's store to `err`, the protocol connect operation,
the store of `-EINPROGRESS` and whatever happened during the sleep. -/
def sk_after_wait (ops : net_ops) (wait : sock → sock) (sk : sock) (addr : sockaddr)
    (addr_len flags : Int) : sock :=
  wait { (ops.connect { sk with err := -EISCONN } addr addr_len flags).1 with
         err := -EINPROGRESS }

/-- The reply that `read` parses on a managed descriptor: what the channel hands back
after the `IPC_READ` request has been written to it. -/
def read_response {σ : Type} (H : Host σ) (st : Shim σ) (sock : lvlip_sock) (sockfd : Int)
    (len : Nat) : ipc_reply :=
  (H.ipc_read
      (H.ipc_write st.host sock.lvlfd
        { type := IPC_READ, pid := H.getpid st.host,
          data := ipc_payload.ipc_read sockfd len }).2
      sock.lvlfd (read_rlen len).toNat).1.2

/-- A host whose `socket` hands out descriptors 3, 4, ... and whose lvl-ip channel
answers every request with an `IPC_READ` reply carrying the five bytes of "WORLD". -/
def sample_host : Host Nat :=
  { _socket := fun h _ _ _ => ((h : Int) + 3, h + 1),
    _connect := fun h _ _ _ => (0, h),
    _close := fun h _ => (0, h),
    _read := fun h _ buf _ => ((0, buf), h),
    _write := fun h _ _ n => ((n : Int), h),
    _sendto := fun h _ _ n _ _ _ => ((n : Int), h),
    _recvfrom := fun h _ buf _ _ _ _ => ((0, buf), h),
    _setsockopt := fun h _ _ _ _ _ => (0, h),
    _getsockopt := fun h _ _ _ optval _ => ((0, optval), h),
    _fcntl := fun h _ _ _ => (0, h),
    getpid := fun _ => 42,
    ipc_write := fun h _ _ => (0, h),
    ipc_read := fun h _ _ =>
      ((40, { type := IPC_READ, pid := 42, rc := 5, err := 0, len := 5,
              buf := [87, 79, 82, 76, 68] }), h) }

/-- A shim that manages descriptor 4097 over channel 3. -/
def sample_shim : Shim Nat :=
  { lvlip_socks := [{ lvlfd := 3, fd := 4097 }], lvlip_socks_count := 1, errno := 0,
    host := 0, ipc_sent := [] }

/-- An allocator that returns a zeroed block in state `TCP_CLOSE`. -/
def sample_sk_alloc : net_ops_id → Int → sock :=
  fun _ _ => { protocol := 0, state := TCP_CLOSE, err := 0, tcb := 0 }

/-- The reply that `transmit_lvlip` parses: what the channel hands back after the
request has been written to it. -/
def transmit_response {σ : Type} (H : Host σ) (st : Shim σ) (lvlfd : Int) (msg : ipc_msg) :
    ipc_reply :=
  (H.ipc_read (H.ipc_write st.host lvlfd msg).2 lvlfd RCBUF_LEN).1.2

/-- A host that records, oldest first, the descriptors passed to its `close`; its
lvl-ip channel answers every request with a matching `IPC_CLOSE` reply of `rc = 0`. -/
def closing_host : Host (List Int) :=
  { _socket := fun h _ _ _ => (3, h),
    _connect := fun h _ _ _ => (0, h),
    _close := fun h fd => (0, h ++ [fd]),
    _read := fun h _ buf _ => ((0, buf), h),
    _write := fun h _ _ n => ((n : Int), h),
    _sendto := fun h _ _ n _ _ _ => ((n : Int), h),
    _recvfrom := fun h _ buf _ _ _ _ => ((0, buf), h),
    _setsockopt := fun h _ _ _ _ _ => (0, h),
    _getsockopt := fun h _ _ _ optval _ => ((0, optval), h),
    _fcntl := fun h _ _ _ => (0, h),
    getpid := fun _ => 42,
    ipc_write := fun h _ _ => (0, h),
    ipc_read := fun h _ _ =>
      ((16, { type := IPC_CLOSE, pid := 42, rc := 0, err := 0, len := 0, buf := [] }), h) }

/-- A shim over `closing_host` that manages descriptor 4097 over channel 3. -/
def closing_shim : Shim (List Int) :=
  { lvlip_socks := [{ lvlfd := 3, fd := 4097 }], lvlip_socks_count := 1, errno := 0,
    host := [], ipc_sent := [] }

/-! ## Auxiliary facts -/

theorem int_to_size_t_of_nonneg (a : Int) (h0 : 0 ≤ a) (h1 : a < 2 ^ 31) :
    int_to_size_t a = a.toNat := by
  unfold int_to_size_t SIZE_T_BITS
  omega

theorem addr_len_guard_passes (a : Int) (h0 : 2 ≤ a) (h1 : a < 2 ^ 31) :
    ¬ int_to_size_t a < SIZEOF_SA_FAMILY := by
  unfold int_to_size_t SIZE_T_BITS SIZEOF_SA_FAMILY
  omega

theorem addr_len_guard_passes_negative (a : Int) (h0 : -(2 ^ 31) ≤ a) (h1 : a < 0) :
    ¬ int_to_size_t a < SIZEOF_SA_FAMILY := by
  unfold int_to_size_t SIZE_T_BITS SIZEOF_SA_FAMILY
  omega

/-- A length of 0 or 1 is refused before anything is read or called. -/
theorem inet_stream_connect_short_len (ops : net_ops) (wait : sock → sock) (s : socket)
    (addr : sockaddr) (addr_len flags : Int) (h0 : 0 ≤ addr_len) (h1 : addr_len < 2) :
    inet_stream_connect ops wait s addr addr_len flags
      = some { rc := -EINVAL, sock := s, calls := [] } := by
  have h : int_to_size_t addr_len < SIZEOF_SA_FAMILY := by
    unfold int_to_size_t SIZE_T_BITS SIZEOF_SA_FAMILY
    omega
  simp [inet_stream_connect, h]

/-- The state guards of `inet_stream_connect`: past the length test, with a family other
than `AF_UNSPEC` and unless the socket is `SS_UNCONNECTED` over a `TCP_CLOSE` block, the
call stores the guard's code in `sk->err`, returns it and does nothing else. -/
theorem inet_stream_connect_guard_eq (ops : net_ops) (wait : sock → sock) (s : socket)
    (sk : sock) (addr : sockaddr) (addr_len flags : Int)
    (hsk : s.sk = some sk) (hg : ¬ int_to_size_t addr_len < SIZEOF_SA_FAMILY)
    (hf : addr.sa_family ≠ AF_UNSPEC)
    (hst : ¬ (s.state = SS_UNCONNECTED ∧ sk.state = TCP_CLOSE)) :
    inet_stream_connect ops wait s addr addr_len flags
      = some { rc := if s.state = SS_CONNECTED then -EISCONN
                     else if s.state = SS_CONNECTING then -EALREADY
                     else if s.state = SS_UNCONNECTED then -EISCONN else -EINVAL,
               sock := { s with sk := some { sk with err :=
                          if s.state = SS_CONNECTED then -EISCONN
                          else if s.state = SS_CONNECTING then -EALREADY
                          else if s.state = SS_UNCONNECTED then -EISCONN else -EINVAL } },
               calls := [] } := by
  have d1 : SS_CONNECTING ≠ SS_CONNECTED := by decide
  have d2 : SS_UNCONNECTED ≠ SS_CONNECTED := by decide
  have d3 : SS_UNCONNECTED ≠ SS_CONNECTING := by decide
  simp only [inet_stream_connect, hg, hsk, hf, if_false]
  by_cases hc : s.state = SS_CONNECTED
  · simp [hc]
  · by_cases hc2 : s.state = SS_CONNECTING
    · simp [hc2, d1]
    · by_cases hc3 : s.state = SS_UNCONNECTED
      · have hk : sk.state ≠ TCP_CLOSE := fun h => hst ⟨hc3, h⟩
        simp [hc3, hk, d2, d3]
      · simp [hc, hc2, hc3]

/-! ## C1: `is_socket_supported` -/

/-- C1, as stated, fails: with `type = SOCK_STREAM | SOCK_NONBLOCK` (2049), which is not
`SOCK_STREAM`, `is_socket_supported` still returns 1. -/
theorem is_socket_supported_accepts_flagged_type :
    is_socket_supported AF_INET 2049 0 = 1 ∧ (2049 : Int) ≠ SOCK_STREAM := by
  decide

/-- C1, amended: for a stream type, that is `SOCK_STREAM` alone or or-ed with the flag
bits `SOCK_NONBLOCK` and `SOCK_CLOEXEC`, `is_socket_supported` returns 1 exactly when
the domain is `AF_INET` and the protocol is 0 or `IPPROTO_TCP`, and 0 otherwise; and it
returns 0 whenever the domain is not `AF_INET`, or the protocol is neither 0 nor
`IPPROTO_TCP`, or the `SOCK_STREAM` bit of the type is clear.  Nothing is said of the
remaining types (the `SOCK_STREAM` bit set in a type that is not a stream type). -/
theorem is_socket_supported_spec (domain type protocol : Int) :
    (type = SOCK_STREAM ∨ type = SOCK_STREAM + SOCK_NONBLOCK ∨
        type = SOCK_STREAM + SOCK_CLOEXEC ∨
        type = SOCK_STREAM + SOCK_NONBLOCK + SOCK_CLOEXEC →
      (is_socket_supported domain type protocol = 1 ↔
          domain = AF_INET ∧ (protocol = 0 ∨ protocol = IPPROTO_TCP)) ∧
      (is_socket_supported domain type protocol = 0 ↔
          ¬ (domain = AF_INET ∧ (protocol = 0 ∨ protocol = IPPROTO_TCP)))) ∧
    (domain ≠ AF_INET → is_socket_supported domain type protocol = 0) ∧
    (protocol ≠ 0 ∧ protocol ≠ IPPROTO_TCP → is_socket_supported domain type protocol = 0) ∧
    (Int.land type SOCK_STREAM = 0 → is_socket_supported domain type protocol = 0) := by
  refine ⟨?_, ?_, ?_, ?_⟩
  · intro ht
    have hbit : Int.land type SOCK_STREAM ≠ 0 := by
      rcases ht with h | h | h | h <;> subst h <;> decide
    unfold is_socket_supported
    constructor
    · by_cases hd : domain = AF_INET <;> by_cases hp0 : protocol = 0 <;>
        by_cases hp : protocol = IPPROTO_TCP <;> simp [hd, hbit, hp0, hp]
    · by_cases hd : domain = AF_INET <;> by_cases hp0 : protocol = 0 <;>
        by_cases hp : protocol = IPPROTO_TCP <;> simp [hd, hbit, hp0, hp]
  · intro hd
    simp [is_socket_supported, hd]
  · intro hp
    unfold is_socket_supported
    by_cases hd : domain = AF_INET <;> by_cases ht : Int.land type SOCK_STREAM = 0 <;>
      simp [hd, ht, hp.1, hp.2]
  · intro ht
    unfold is_socket_supported
    by_cases hd : domain = AF_INET <;> simp [hd, ht]

/-- Witness for C1: a non-blocking TCP stream socket in `AF_INET` is supported. -/
theorem is_socket_supported_spec_witness :
    is_socket_supported AF_INET (SOCK_STREAM + SOCK_NONBLOCK) IPPROTO_TCP = 1 :=
  ((is_socket_supported_spec AF_INET (SOCK_STREAM + SOCK_NONBLOCK) IPPROTO_TCP).1
      (Or.inr (Or.inl rfl))).1.mpr ⟨rfl, Or.inr rfl⟩

/-! ## C2: what becomes of a latched connection error -/

/-- C2 fails on the code: with `-ECONNRESET` latched on a connected socket, a call of
`inet_stream_connect` with an `AF_INET` address of length 16 returns `-EISCONN`, not
the latched error, and overwrites `sk->err` with `-EISCONN`; the latched error is lost,
for a later `inet_close` returns `-EISCONN` too.  The sibling paths do deliver it:
`inet_close` on the same socket, and `inet_stream_connect` with an `AF_UNSPEC` address,
return `-ECONNRESET`. -/
theorem connect_overwrites_latched_reset :
    inet_stream_connect idle_ops id
        (sample_socket SS_CONNECTED (some (sample_sk TCP_ESTABLISHED (-ECONNRESET))))
        sample_addr 16 0
      = some { rc := -EISCONN,
               sock := sample_socket SS_CONNECTED (some (sample_sk TCP_ESTABLISHED (-EISCONN))),
               calls := [] } ∧
    -EISCONN ≠ -ECONNRESET ∧
    (inet_close idle_ops
        (sample_socket SS_CONNECTED (some (sample_sk TCP_ESTABLISHED (-EISCONN))))).map
      (fun o => o.rc) = some (-EISCONN) ∧
    (inet_close idle_ops
        (sample_socket SS_CONNECTED (some (sample_sk TCP_ESTABLISHED (-ECONNRESET))))).map
      (fun o => o.rc) = some (-ECONNRESET) ∧
    (inet_stream_connect idle_ops id
        (sample_socket SS_CONNECTED (some (sample_sk TCP_ESTABLISHED (-ECONNRESET))))
        { sa_family := AF_UNSPEC, sa_data := [] } 16 0).map (fun o => o.rc)
      = some (-ECONNRESET) := by
  decide

/-- The paths that deliver a latched error `e`: `inet_close` returns `e` and leaves
`err = e` when the protocol close operation does not touch `err`, and so does
`inet_stream_connect` with `sa_family = AF_UNSPEC` when the protocol disconnect
operation does not touch `err`. -/
theorem latched_error_delivered (ops : net_ops) (wait : sock → sock) (s : socket) (sk : sock)
    (e : Int) (addr : sockaddr) (addr_len flags : Int)
    (hsk : s.sk = some sk) (herr : sk.err = e)
    (h0 : 2 ≤ addr_len) (h1 : addr_len < 2 ^ 31) :
    ((ops.close sk).1.err = sk.err →
        ∃ o, inet_close ops s = some o ∧ o.rc = e ∧ o.sock.sk.map sock.err = some e) ∧
    (addr.sa_family = AF_UNSPEC → (ops.disconnect sk flags).1.err = sk.err →
        ∃ o, inet_stream_connect ops wait s addr addr_len flags = some o ∧ o.rc = e ∧
          o.sock.sk.map sock.err = some e) := by
  have hg := addr_len_guard_passes addr_len h0 h1
  refine ⟨?_, ?_⟩
  · intro hc
    have hrun : inet_close ops s
        = some { rc := (ops.close sk).1.err,
                 sock := { s with state := SS_DISCONNECTING, sk := some (ops.close sk).1 },
                 calls := [Call.close] } := by
      simp only [inet_close, hsk]
    rw [hrun]
    rw [herr] at hc
    exact ⟨_, rfl, hc, by simp [hc]⟩
  · intro hf hd
    have hrun : inet_stream_connect ops wait s addr addr_len flags
        = some { rc := (ops.disconnect sk flags).1.err,
                 sock := { s with
                   state := if (ops.disconnect sk flags).1.err ≠ 0 then SS_DISCONNECTING
                            else SS_UNCONNECTED,
                   sk := some (ops.disconnect sk flags).1 },
                 calls := [Call.disconnect flags] } := by
      simp only [inet_stream_connect, hg, hsk, hf, if_true, if_false]
    rw [hrun]
    rw [herr] at hd
    exact ⟨_, rfl, hd, by simp [hd]⟩

/-- On every other path `inet_stream_connect` stores to `sk->err` before reading it, so
its outcome does not depend on the value that was latched. -/
theorem inet_stream_connect_discards_err (ops : net_ops) (wait : sock → sock) (s : socket)
    (sk : sock) (addr : sockaddr) (addr_len flags : Int)
    (hsk : s.sk = some sk) (h0 : 2 ≤ addr_len) (h1 : addr_len < 2 ^ 31)
    (hf : addr.sa_family ≠ AF_UNSPEC) :
    inet_stream_connect ops wait s addr addr_len flags
      = inet_stream_connect ops wait { s with sk := some { sk with err := 0 } }
          addr addr_len flags := by
  have hg := addr_len_guard_passes addr_len h0 h1
  simp only [inet_stream_connect, hg, hsk, hf, if_false]

/-! ## C3: the state guards of `inet_stream_connect` -/

/-- C3: for a socket with a sock attached, `addr_len >= sizeof(sa_family)` and
`sa_family != AF_UNSPEC`, unless the socket is `SS_UNCONNECTED` over a `TCP_CLOSE` block,
`inet_stream_connect` returns `-EISCONN` in state `SS_CONNECTED`, `-EALREADY` in
`SS_CONNECTING`, `-EISCONN` in `SS_UNCONNECTED` (TCP state other than `TCP_CLOSE`) and
`-EINVAL` in any other state; it makes no call at all (so the protocol connect operation
is not invoked) and leaves `sock->state`, and every field of the socket but `sk->err`,
as it found them. -/
theorem inet_stream_connect_state_guards (ops : net_ops) (wait : sock → sock) (s : socket)
    (sk : sock) (addr : sockaddr) (addr_len flags : Int)
    (hsk : s.sk = some sk) (h0 : 2 ≤ addr_len) (h1 : addr_len < 2 ^ 31)
    (hf : addr.sa_family ≠ AF_UNSPEC)
    (hst : ¬ (s.state = SS_UNCONNECTED ∧ sk.state = TCP_CLOSE)) :
    ∃ o, inet_stream_connect ops wait s addr addr_len flags = some o ∧
      o.rc = (if s.state = SS_CONNECTED then -EISCONN
              else if s.state = SS_CONNECTING then -EALREADY
              else if s.state = SS_UNCONNECTED then -EISCONN else -EINVAL) ∧
      o.calls = [] ∧
      o.sock.state = s.state ∧
      o.sock = { s with sk := some { sk with err := o.rc } } := by
  rw [inet_stream_connect_guard_eq ops wait s sk addr addr_len flags hsk
        (addr_len_guard_passes addr_len h0 h1) hf hst]
  exact ⟨_, rfl, rfl, rfl, rfl, rfl⟩

/-- Witness for C3: a second connect on a socket that is still connecting returns
`-EALREADY`, calls nothing and leaves the socket state `SS_CONNECTING`. -/
theorem inet_stream_connect_state_guards_witness :
    ∃ o, inet_stream_connect idle_ops id
            (sample_socket SS_CONNECTING (some (sample_sk TCP_SYN_SENT (-EINPROGRESS))))
            sample_addr 16 0 = some o ∧
      o.rc = (if SS_CONNECTING = SS_CONNECTED then -EISCONN
              else if SS_CONNECTING = SS_CONNECTING then -EALREADY
              else if SS_CONNECTING = SS_UNCONNECTED then -EISCONN else -EINVAL) ∧
      o.calls = [] ∧
      o.sock.state = SS_CONNECTING ∧
      o.sock = { sample_socket SS_CONNECTING (some (sample_sk TCP_SYN_SENT (-EINPROGRESS)))
                 with sk := some { sample_sk TCP_SYN_SENT (-EINPROGRESS) with err := o.rc } } :=
  inet_stream_connect_state_guards idle_ops id
    (sample_socket SS_CONNECTING (some (sample_sk TCP_SYN_SENT (-EINPROGRESS))))
    (sample_sk TCP_SYN_SENT (-EINPROGRESS)) sample_addr 16 0
    rfl (by decide) (by decide) (by decide) (by decide)

/-! ## C4: the length guard of `inet_stream_connect` -/

/-- C4 fails on the code for negative lengths: `addr_len < sizeof(addr->sa_family)`
compares as `size_t`, so `addr_len = -1` becomes `2 ^ 64 - 1` and passes the guard.
On an unconnected socket over a closed block the protocol connect operation is then
invoked and both `sock->state` and `sk->err` change; on a connected socket the call
returns `-EISCONN`, not `-EINVAL`, and stores it in `sk->err`. -/
theorem inet_stream_connect_negative_len :
    int_to_size_t (-1) = 18446744073709551615 ∧
    inet_stream_connect idle_ops id
        (sample_socket SS_UNCONNECTED (some (sample_sk TCP_CLOSE 0))) sample_addr (-1) 0
      = some { rc := -EINPROGRESS,
               sock := sample_socket SS_CONNECTING (some (sample_sk TCP_CLOSE (-EINPROGRESS))),
               calls := [Call.connect sample_addr (-1) 0, Call.wait_sleep] } ∧
    inet_stream_connect idle_ops id
        (sample_socket SS_CONNECTED (some (sample_sk TCP_ESTABLISHED 0))) sample_addr (-1) 0
      = some { rc := -EISCONN,
               sock := sample_socket SS_CONNECTED (some (sample_sk TCP_ESTABLISHED (-EISCONN))),
               calls := [] } := by
  decide


/-! ## C5: the connecting path of `inet_stream_connect` -/

/-- On the connecting path the outcome is decided by the `err` found after the sleep. -/
theorem inet_stream_connect_connect_eq (ops : net_ops) (wait : sock → sock) (s : socket)
    (sk : sock) (addr : sockaddr) (addr_len flags : Int)
    (hsk : s.sk = some sk) (hg : ¬ int_to_size_t addr_len < SIZEOF_SA_FAMILY)
    (hf : addr.sa_family ≠ AF_UNSPEC)
    (hss : s.state = SS_UNCONNECTED) (htcp : sk.state = TCP_CLOSE) :
    inet_stream_connect ops wait s addr addr_len flags
      = some
          { rc := (sk_after_wait ops wait sk addr addr_len flags).err,
            sock := { s with
              state := if (sk_after_wait ops wait sk addr addr_len flags).err = 0
                       then SS_CONNECTED else SS_CONNECTING,
              sk := some (sk_after_wait ops wait sk addr addr_len flags) },
            calls := [Call.connect addr addr_len flags, Call.wait_sleep] ++
              (if (sk_after_wait ops wait sk addr addr_len flags).err = -ETIMEDOUT ∨
                  (sk_after_wait ops wait sk addr addr_len flags).err = -ECONNREFUSED
               then [Call.socket_free] else []) } := by
  have d2 : SS_UNCONNECTED ≠ SS_CONNECTED := by decide
  have d3 : SS_UNCONNECTED ≠ SS_CONNECTING := by decide
  unfold sk_after_wait
  simp only [inet_stream_connect, hg, hsk, hf, hss, htcp, d2, d3, if_false, if_true,
    ne_eq, not_true_eq_false]
  generalize (wait _) = w
  by_cases hb : w.err = -ETIMEDOUT ∨ w.err = -ECONNREFUSED
  · have hz : w.err ≠ 0 := by
      rcases hb with hb | hb <;> rw [hb] <;> decide
    simp [hb, hz]
  · have z1 : ETIMEDOUT ≠ 0 := by decide
    have z2 : ECONNREFUSED ≠ 0 := by decide
    by_cases hz : w.err = 0
    · simp [hz, z1, z2]
    · simp [hb, hz]

/-- A return value of 0 from `inet_stream_connect`, for a family other than
`AF_UNSPEC`, means the socket is `SS_CONNECTED`. -/
theorem inet_stream_connect_zero_connected (ops : net_ops) (wait : sock → sock) (s : socket)
    (addr : sockaddr) (addr_len flags : Int) (o : Outcome)
    (hf : addr.sa_family ≠ AF_UNSPEC)
    (hrun : inet_stream_connect ops wait s addr addr_len flags = some o)
    (hrc : o.rc = 0) : o.sock.state = SS_CONNECTED := by
  by_cases hg : int_to_size_t addr_len < SIZEOF_SA_FAMILY
  · simp only [inet_stream_connect, hg, if_true, Option.some.injEq] at hrun
    subst hrun
    simp [EINVAL] at hrc
  · cases hsk : s.sk with
    | none => simp [inet_stream_connect, hg, hsk] at hrun
    | some sk =>
      by_cases hst : s.state = SS_UNCONNECTED ∧ sk.state = TCP_CLOSE
      · rw [inet_stream_connect_connect_eq ops wait s sk addr addr_len flags hsk hg hf
              hst.1 hst.2, Option.some.injEq] at hrun
        subst hrun
        simp only at hrc
        simp [hrc]
      · rw [inet_stream_connect_guard_eq ops wait s sk addr addr_len flags hsk hg hf hst,
              Option.some.injEq] at hrun
        subst hrun
        simp only at hrc
        exfalso
        revert hrc
        split_ifs <;> decide

/-- C5: on a socket with a sock attached, with `addr_len >= sizeof(sa_family)`,
`sa_family != AF_UNSPEC`, socket state `SS_UNCONNECTED` and TCP state `TCP_CLOSE`,
`inet_stream_connect` invokes the protocol connect operation once, then waits once, and
returns the value `e` of `sk->err` found after the wait; the calls it makes are exactly
connect, `wait_sleep` and, for `-ETIMEDOUT` or `-ECONNREFUSED` only, `socket_free`, in
that order and nothing else.  If `e = 0` the result is 0,
`sock->state` is `SS_CONNECTED` and the socket is not freed; if `e` is `-ECONNREFUSED`
or `-ETIMEDOUT` the socket is freed (after the wait); for any other `e` the socket is
not freed and `sock->state` is `SS_CONNECTING`, hence not `SS_CONNECTED`.  And for every
call with `sa_family != AF_UNSPEC`, a return value of 0 implies
`sock->state = SS_CONNECTED`. -/
theorem inet_stream_connect_connecting_path (ops : net_ops) (wait : sock → sock) (s : socket)
    (sk : sock) (addr : sockaddr) (addr_len flags : Int)
    (hsk : s.sk = some sk) (h0 : 2 ≤ addr_len) (h1 : addr_len < 2 ^ 31)
    (hf : addr.sa_family ≠ AF_UNSPEC)
    (hss : s.state = SS_UNCONNECTED) (htcp : sk.state = TCP_CLOSE) :
    (∃ o, inet_stream_connect ops wait s addr addr_len flags = some o ∧
      o.rc = (sk_after_wait ops wait sk addr addr_len flags).err ∧
      o.sock.sk = some (sk_after_wait ops wait sk addr addr_len flags) ∧
      o.calls = [Call.connect addr addr_len flags, Call.wait_sleep] ++
        (if o.rc = -ETIMEDOUT ∨ o.rc = -ECONNREFUSED then [Call.socket_free] else []) ∧
      o.calls.take 2 = [Call.connect addr addr_len flags, Call.wait_sleep] ∧
      o.calls.count (Call.connect addr addr_len flags) = 1 ∧
      o.calls.count Call.wait_sleep = 1 ∧
      (∀ c ∈ o.calls, c = Call.connect addr addr_len flags ∨ c = Call.wait_sleep ∨
          c = Call.socket_free) ∧
      (o.rc = 0 → o.sock.state = SS_CONNECTED ∧ Call.socket_free ∉ o.calls ∧
          o.calls = [Call.connect addr addr_len flags, Call.wait_sleep]) ∧
      (o.rc = -ECONNREFUSED ∨ o.rc = -ETIMEDOUT →
          o.calls = [Call.connect addr addr_len flags, Call.wait_sleep, Call.socket_free]) ∧
      (o.rc ≠ 0 → o.rc ≠ -ECONNREFUSED → o.rc ≠ -ETIMEDOUT →
          Call.socket_free ∉ o.calls ∧ o.sock.state = SS_CONNECTING ∧
            o.sock.state ≠ SS_CONNECTED ∧
            o.calls = [Call.connect addr addr_len flags, Call.wait_sleep])) ∧
    (∀ (ops2 : net_ops) (wait2 : sock → sock) (s2 : socket) (addr2 : sockaddr)
        (addr_len2 flags2 : Int) (o2 : Outcome),
      addr2.sa_family ≠ AF_UNSPEC →
      inet_stream_connect ops2 wait2 s2 addr2 addr_len2 flags2 = some o2 →
      o2.rc = 0 → o2.sock.state = SS_CONNECTED) := by
  refine ⟨?_, fun ops2 wait2 s2 addr2 addr_len2 flags2 o2 hf2 hrun hrc =>
    inet_stream_connect_zero_connected ops2 wait2 s2 addr2 addr_len2 flags2 o2 hf2 hrun hrc⟩
  rw [inet_stream_connect_connect_eq ops wait s sk addr addr_len flags hsk
        (addr_len_guard_passes addr_len h0 h1) hf hss htcp]
  refine ⟨_, rfl, rfl, rfl, rfl, ?_, ?_, ?_, ?_, ?_, ?_, ?_⟩
  · simp
  · split_ifs <;> simp [List.count_cons]
  · split_ifs <;> simp [List.count_cons]
  · intro c hc
    simp only at hc
    split_ifs at hc <;> simp at hc <;> tauto
  · intro hz
    simp only at hz
    have hn : ¬ ((sk_after_wait ops wait sk addr addr_len flags).err = -ETIMEDOUT ∨
        (sk_after_wait ops wait sk addr addr_len flags).err = -ECONNREFUSED) := by
      rw [hz]; decide
    have z1 : ETIMEDOUT ≠ 0 := by decide
    have z2 : ECONNREFUSED ≠ 0 := by decide
    simp [hz, z1, z2]
  · intro hb
    simp only at hb
    have hb2 : (sk_after_wait ops wait sk addr addr_len flags).err = -ETIMEDOUT ∨
        (sk_after_wait ops wait sk addr addr_len flags).err = -ECONNREFUSED := hb.symm
    simp [hb2]
  · intro hz hr ht
    simp only at hz hr ht
    have hn : ¬ ((sk_after_wait ops wait sk addr addr_len flags).err = -ETIMEDOUT ∨
        (sk_after_wait ops wait sk addr addr_len flags).err = -ECONNREFUSED) := by
      rintro (h | h)
      · exact ht h
      · exact hr h
    simp [hz, hn]
    decide

/-- Witness for C5: the peer refuses; connect returns `-ECONNREFUSED` and frees the
socket. -/
theorem inet_stream_connect_connecting_path_witness :
    ∃ o, inet_stream_connect idle_ops wait_refused
            (sample_socket SS_UNCONNECTED (some (sample_sk TCP_CLOSE 0))) sample_addr 16 0
          = some o ∧ o.rc = -ECONNREFUSED ∧ Call.socket_free ∈ o.calls := by
  obtain ⟨o, hrun, hrc, -, -, -, -, -, -, -, hfree, -⟩ :=
    (inet_stream_connect_connecting_path idle_ops wait_refused
      (sample_socket SS_UNCONNECTED (some (sample_sk TCP_CLOSE 0)))
      (sample_sk TCP_CLOSE 0) sample_addr 16 0
      rfl (by decide) (by decide) (by decide) rfl rfl).1
  have hrc2 : o.rc = -ECONNREFUSED := by rw [hrc]; decide
  exact ⟨o, hrun, hrc2, by rw [hfree (Or.inl hrc2)]; simp⟩


/-! ## C6: `read` on a managed descriptor -/

theorem reply_region_length (r : ipc_reply) (len : Nat) :
    (reply_region r len).length = len := by
  simp only [reply_region, List.length_append, List.length_take, List.length_replicate]
  omega

theorem reply_region_take (r : ipc_reply) (len n : Nat) (h1 : n ≤ len)
    (h2 : n ≤ r.buf.length) : (reply_region r len).take n = r.buf.take n := by
  unfold reply_region
  rw [List.take_append_of_le_length (by simp; omega), List.take_take]
  congr 1
  omega

theorem memcpy_take (dst src : List Nat) (n : Nat) (h : n ≤ src.length) :
    (memcpy dst src n).take n = src.take n := by
  unfold memcpy
  rw [List.take_append_of_le_length (by simp; omega), List.take_take]
  simp

theorem memcpy_drop (dst src : List Nat) (n : Nat) (h : n ≤ src.length) :
    (memcpy dst src n).drop n = dst.drop n := by
  unfold memcpy
  have hl : (src.take n).length = n := by simp; omega
  rw [List.drop_append_eq_append_drop, hl]
  simp

theorem memset_drop (buf : List Nat) (c len n : Nat) (h : n ≤ len) :
    (memset buf c len).drop n = List.replicate (len - n) c ++ buf.drop len := by
  unfold memset
  rw [List.drop_append_of_le_length (by simp; omega)]
  simp


theorem size_t_to_int_of_lt (x : Nat) (h : x < 2 ^ 31) :
    size_t_to_int (x % 2 ^ SIZE_T_BITS) = (x : Int) := by
  have h1 : x % 2 ^ SIZE_T_BITS = x := Nat.mod_eq_of_lt (by unfold SIZE_T_BITS; omega)
  have h2 : x % 2 ^ INT_BITS = x := Nat.mod_eq_of_lt (by unfold INT_BITS; omega)
  have h3 : x < 2 ^ (INT_BITS - 1) := by unfold INT_BITS; omega
  simp only [size_t_to_int, h1, h2, h3, if_true]

theorem read_rlen_of_lt (len : Nat) (h : IPC_READ_HDR + len < 2 ^ 31) :
    read_rlen len = ((IPC_READ_HDR + len : Nat) : Int) :=
  size_t_to_int_of_lt (IPC_READ_HDR + len) h

/-- When `rlen` does not wrap (`sizeof` of the three headers plus `len` fits an `int`),
on a managed descriptor and for every reply whose type is `IPC_READ` and whose pid is
the caller's, `read` is defined and returns
* the reply's `rc`, with `errno` set to the reply's `err`, when `rc < 0`;
* `-1` when `rc >= 0` and the reply's data length `n` is negative or greater than `len`;
* `n` otherwise, and then the first `n` bytes of the caller's buffer are the first `n`
  bytes that follow the reply's headers (the reply's payload, when it has `n` bytes),
  the remaining `len - n` bytes are zero and the bytes past `len` are untouched.
Hence a non-negative result is at most `len`. -/
theorem read_managed_reply {σ : Type} (H : Host σ) (st : Shim σ) (sockfd : Int)
    (buf : List Nat) (len : Nat) (sock : lvlip_sock)
    (hlen : IPC_READ_HDR + len < 2 ^ 31)
    (hsock : lvlip_get_sock st sockfd = sock_ptr.found sock)
    (htype : (read_response H st sock sockfd len).type = IPC_READ)
    (hpid : (read_response H st sock sockfd len).pid = H.getpid st.host) :
    ∃ out, read H st sockfd buf len = some out ∧
    ((read_response H st sock sockfd len).rc < 0 →
        out.1.1 = (read_response H st sock sockfd len).rc ∧
        out.2.errno = (read_response H st sock sockfd len).err ∧
        out.1.2 = buf) ∧
    (0 ≤ (read_response H st sock sockfd len).rc →
      ((read_response H st sock sockfd len).len < 0 ∨
        (len : Int) < (read_response H st sock sockfd len).len) →
        out.1.1 = -1 ∧ out.2.errno = st.errno ∧ out.1.2 = buf) ∧
    (0 ≤ (read_response H st sock sockfd len).rc →
      0 ≤ (read_response H st sock sockfd len).len →
      (read_response H st sock sockfd len).len ≤ (len : Int) →
        out.1.1 = (read_response H st sock sockfd len).len ∧
        out.2.errno = st.errno ∧
        out.1.2.take (read_response H st sock sockfd len).len.toNat
          = (reply_region (read_response H st sock sockfd len) len).take
              (read_response H st sock sockfd len).len.toNat ∧
        ((read_response H st sock sockfd len).len.toNat
            ≤ (read_response H st sock sockfd len).buf.length →
          out.1.2.take (read_response H st sock sockfd len).len.toNat
            = (read_response H st sock sockfd len).buf.take
                (read_response H st sock sockfd len).len.toNat) ∧
        out.1.2.drop (read_response H st sock sockfd len).len.toNat
          = List.replicate (len - (read_response H st sock sockfd len).len.toNat) 0
              ++ buf.drop len) ∧
    (0 ≤ out.1.1 → out.1.1 ≤ (len : Int)) ∧
    out.2.ipc_sent = st.ipc_sent ++ [(sock.lvlfd,
        { type := IPC_READ, pid := H.getpid st.host,
          data := ipc_payload.ipc_read sockfd len })] ∧
    out.2.lvlip_socks = st.lvlip_socks := by
  have hr := read_rlen_of_lt len hlen
  have hH : IPC_READ_HDR = 26 := rfl
  have hM : SIZEOF_IPC_MSG = 6 := rfl
  have hE : SIZEOF_IPC_ERR = 8 := rfl
  have c1 : ¬ read_rlen len ≤ 0 := by omega
  have c2 : ¬ read_rlen len < (SIZEOF_IPC_MSG : Int) := by omega
  have c3 : ¬ read_rlen len < ((SIZEOF_IPC_MSG + SIZEOF_IPC_ERR : Nat) : Int) := by omega
  have c4 : ¬ read_rlen len < (IPC_READ_HDR : Int) := by omega
  have hav : (read_rlen len).toNat - IPC_READ_HDR = len := by omega
  have hrun : read H st sockfd buf len =
      (if (read_response H st sock sockfd len).rc < 0 then
        some (((read_response H st sock sockfd len).rc, buf),
          { st with
            host := (H.ipc_read
              (H.ipc_write st.host sock.lvlfd
                { type := IPC_READ, pid := H.getpid st.host,
                  data := ipc_payload.ipc_read sockfd len }).2
              sock.lvlfd (read_rlen len).toNat).2,
            ipc_sent := st.ipc_sent ++ [(sock.lvlfd,
                { type := IPC_READ, pid := H.getpid st.host,
                  data := ipc_payload.ipc_read sockfd len })],
            errno := (read_response H st sock sockfd len).err })
      else if (read_response H st sock sockfd len).len < 0 ∨
          (len : Int) < (read_response H st sock sockfd len).len then
        some ((-1, buf),
          { st with
            host := (H.ipc_read
              (H.ipc_write st.host sock.lvlfd
                { type := IPC_READ, pid := H.getpid st.host,
                  data := ipc_payload.ipc_read sockfd len }).2
              sock.lvlfd (read_rlen len).toNat).2,
            ipc_sent := st.ipc_sent ++ [(sock.lvlfd,
                { type := IPC_READ, pid := H.getpid st.host,
                  data := ipc_payload.ipc_read sockfd len })] })
      else if len < (read_response H st sock sockfd len).len.toNat then none
      else
        some (((read_response H st sock sockfd len).len,
            memcpy (memset buf 0 len) (reply_region (read_response H st sock sockfd len) len)
              (read_response H st sock sockfd len).len.toNat),
          { st with
            host := (H.ipc_read
              (H.ipc_write st.host sock.lvlfd
                { type := IPC_READ, pid := H.getpid st.host,
                  data := ipc_payload.ipc_read sockfd len }).2
              sock.lvlfd (read_rlen len).toNat).2,
            ipc_sent := st.ipc_sent ++ [(sock.lvlfd,
                { type := IPC_READ, pid := H.getpid st.host,
                  data := ipc_payload.ipc_read sockfd len })] })) := by
    unfold read_response at htype hpid ⊢
    simp only [read, hsock, c1, c2, c3, c4, hav, htype, hpid, ne_eq, not_true_eq_false,
      or_self, if_false]
  rw [hrun]
  generalize read_response H st sock sockfd len = r
  by_cases h1 : r.rc < 0
  · rw [if_pos h1]
    refine ⟨_, rfl, ?_, ?_, ?_, ?_, rfl, rfl⟩
    · intro _; exact ⟨rfl, rfl, rfl⟩
    · intro h0; omega
    · intro h0; omega
    · intro h; simp only at h; omega
  · by_cases h2 : r.len < 0 ∨ (len : Int) < r.len
    · rw [if_neg h1, if_pos h2]
      refine ⟨_, rfl, ?_, ?_, ?_, ?_, rfl, rfl⟩
      · intro h; exact absurd h h1
      · intro _ _; exact ⟨rfl, rfl, rfl⟩
      · intro _ hn0 hn1; omega
      · intro h; simp only at h; omega
    · have hle : r.len.toNat ≤ len := by omega
      have h3 : ¬ len < r.len.toNat := by omega
      have hreg : r.len.toNat ≤ (reply_region r len).length := by
        rw [reply_region_length]; exact hle
      rw [if_neg h1, if_neg h2, if_neg h3]
      refine ⟨_, rfl, ?_, ?_, ?_, ?_, rfl, rfl⟩
      · intro h; exact absurd h h1
      · intro _ hn; exact absurd hn h2
      · intro _ _ _
        refine ⟨rfl, rfl, memcpy_take _ _ _ hreg, ?_, ?_⟩
        · intro hb
          simp only
          rw [memcpy_take _ _ _ hreg, reply_region_take r len _ hle hb]
        · simp only
          rw [memcpy_drop _ _ _ hreg, memset_drop buf 0 len _ hle]
      · intro _; simp only; omega

/-- An 8-byte read on the sample channel, which answers with the 5 bytes of "WORLD":
`read` returns 5, the buffer holds the payload followed by zeros, and the two bytes past
`len` keep their value. -/
theorem read_managed_reply_example :
    (read sample_host sample_shim 4097 (List.replicate 10 255) 8).map (fun out => out.1)
      = some (5, [87, 79, 82, 76, 68, 0, 0, 0, 255, 255]) := by
  decide

/-- C6 fails on the code for large lengths: `rlen` is an `int`, so the sum of the header
sizes and `len` wraps.  With `len = 2 ^ 32` the reply buffer `rbuf` has 26 bytes, room
for the headers only, and copying the 5 payload bytes the reply announces reads past its
end; with `len = 2 ^ 31` the size of `rbuf` is negative.  In both cases the call is
undefined, where the claim has it return 5 with the payload in the caller's buffer. -/
theorem read_rlen_wraps :
    read_rlen 4294967296 = 26 ∧
    (read_response sample_host sample_shim { lvlfd := 3, fd := 4097 } 4097 4294967296).len
      = 5 ∧
    (∀ buf : List Nat, read sample_host sample_shim 4097 buf 4294967296 = none) ∧
    read_rlen 2147483648 = -2147483622 ∧
    (∀ buf : List Nat, read sample_host sample_shim 4097 buf 2147483648 = none) := by
  refine ⟨by decide, by decide, fun buf => ?_, by decide, fun buf => ?_⟩
  · have h : read_rlen 4294967296 = 26 := by decide
    simp [read, lvlip_get_sock, lvlip_walk, sample_shim, sample_host, h, SIZEOF_IPC_MSG,
      SIZEOF_IPC_ERR, IPC_READ_HDR, SIZEOF_IPC_READ]
  · have h : read_rlen 2147483648 = -2147483622 := by decide
    simp [read, lvlip_get_sock, lvlip_walk, sample_shim, h]

/-! ## C7: `socket` falls back to the host for unsupported parameters -/

/-- C7: for every triple that `is_socket_supported` rejects, the shim's `socket` returns
what the host `socket` returns for the same three arguments; the host `socket` call is
the only thing that happens to the host, no IPC message is sent, and the list of lvl-ip
sockets, `lvlip_socks_count` and `errno` are as before. -/
theorem socket_shim_unsupported {σ : Type} (H : Host σ) (st : Shim σ)
    (domain type protocol : Int) (h : is_socket_supported domain type protocol = 0) :
    ∃ r st1, socket_shim H st domain type protocol = some (r, st1) ∧
      r = (H._socket st.host domain type protocol).1 ∧
      st1.host = (H._socket st.host domain type protocol).2 ∧
      st1.ipc_sent = st.ipc_sent ∧
      st1.lvlip_socks = st.lvlip_socks ∧
      st1.lvlip_socks_count = st.lvlip_socks_count ∧
      st1.errno = st.errno := by
  have hrun : socket_shim H st domain type protocol
      = some ((H._socket st.host domain type protocol).1,
              { st with host := (H._socket st.host domain type protocol).2 }) := by
    simp only [socket_shim, h, if_true]
  rw [hrun]
  exact ⟨_, _, rfl, rfl, rfl, rfl, rfl, rfl, rfl⟩

/-- Witness for C7: a UDP socket (`SOCK_DGRAM` is 2) is handed to the host, which
returns descriptor 3. -/
theorem socket_shim_unsupported_witness :
    ∃ r st1, socket_shim sample_host sample_shim AF_INET 2 IPPROTO_UDP = some (r, st1) ∧
      r = (sample_host._socket sample_shim.host AF_INET 2 IPPROTO_UDP).1 ∧
      st1.host = (sample_host._socket sample_shim.host AF_INET 2 IPPROTO_UDP).2 ∧
      st1.ipc_sent = sample_shim.ipc_sent ∧
      st1.lvlip_socks = sample_shim.lvlip_socks ∧
      st1.lvlip_socks_count = sample_shim.lvlip_socks_count ∧
      st1.errno = sample_shim.errno :=
  socket_shim_unsupported sample_host sample_shim AF_INET 2 IPPROTO_UDP (by decide)

/-! ## C8: `inet_abort` -/

/-- C8: `inet_abort` returns 0 for every socket; it invokes the protocol abort operation
once when a sock is attached and makes no call when none is; the socket's own fields
(`type`, `state`, `ops` and whether a sock is attached) are unchanged, the attached sock
being the one the abort operation left. -/
theorem inet_abort_spec (ops : net_ops) (s : socket) :
    (inet_abort ops s).rc = 0 ∧
    (inet_abort ops s).calls = (if s.sk.isSome then [Call.abort] else []) ∧
    (inet_abort ops s).calls.count Call.abort = (if s.sk.isSome then 1 else 0) ∧
    (inet_abort ops s).sock.type = s.type ∧
    (inet_abort ops s).sock.state = s.state ∧
    (inet_abort ops s).sock.ops = s.ops ∧
    (inet_abort ops s).sock.sk = s.sk.map (fun sk => (ops.abort sk).1) := by
  cases hsk : s.sk with
  | none => simp [inet_abort, hsk]
  | some sk => simp [inet_abort, hsk]

/-! ## C9: `inet_close` -/

/-- C9: for every socket with a sock attached, `inet_close` sets `sock->state` to
`SS_DISCONNECTING`, invokes the protocol close operation exactly once (and nothing
else) and returns `sk->err` as that operation left it; the value the operation itself
returned plays no part, so two close operations that leave the same block give the same
outcome; and the result is 0 exactly when no error is latched after the operation. -/
theorem inet_close_spec (ops : net_ops) (s : socket) (sk : sock) (hsk : s.sk = some sk) :
    ∃ o, inet_close ops s = some o ∧
      o.sock.state = SS_DISCONNECTING ∧
      o.calls = [Call.close] ∧
      o.calls.count Call.close = 1 ∧
      o.rc = (ops.close sk).1.err ∧
      o.sock.sk = some (ops.close sk).1 ∧
      o.sock.type = s.type ∧ o.sock.ops = s.ops ∧
      (o.rc = 0 ↔ (ops.close sk).1.err = 0) ∧
      (∀ ops2 : net_ops, (ops2.close sk).1 = (ops.close sk).1 →
          inet_close ops2 s = some o) := by
  have hrun : inet_close ops s
      = some { rc := (ops.close sk).1.err,
               sock := { s with state := SS_DISCONNECTING, sk := some (ops.close sk).1 },
               calls := [Call.close] } := by
    simp only [inet_close, hsk]
  rw [hrun]
  refine ⟨_, rfl, rfl, rfl, by simp, rfl, rfl, rfl, rfl, Iff.rfl, ?_⟩
  intro ops2 h2
  simp only [inet_close, hsk, h2]

/-- Witness for C9: the protocol close reports failure (returns -1) but latches no
error; `inet_close` still returns 0. -/
theorem inet_close_spec_witness :
    ∃ o, inet_close failing_ops (sample_socket SS_CONNECTED (some (sample_sk TCP_ESTABLISHED 0)))
          = some o ∧ o.rc = 0 ∧ o.sock.state = SS_DISCONNECTING := by
  obtain ⟨o, hrun, hst, -, -, hrc, -⟩ :=
    inet_close_spec failing_ops (sample_socket SS_CONNECTED (some (sample_sk TCP_ESTABLISHED 0)))
      (sample_sk TCP_ESTABLISHED 0) rfl
  exact ⟨o, hrun, hrc, hst⟩

/-! ## C10: `inet_create` -/

/-- C10, as stated, fails: `inet_create` selects the row of `inet_ops` with a bit
test, so a socket of type `SOCK_STREAM | SOCK_NONBLOCK` (2049), which is not
`SOCK_STREAM`, created with `IPPROTO_TCP` succeeds. -/
theorem inet_create_accepts_flagged_type :
    (inet_create sample_sk_alloc
        { type := 2049, state := SS_UNCONNECTED, ops := none, sk := none } IPPROTO_TCP).rc = 0 ∧
    (2049 : Int) ≠ SOCK_STREAM := by
  decide

/-- C10, amended: for a socket whose type is a stream type (`SOCK_STREAM` alone or
or-ed with the flag bits `SOCK_NONBLOCK` and `SOCK_CLOEXEC`) and whose protocol is 0 or
`IPPROTO_TCP`, `inet_create` returns 0, installs the stream socket operations in
`sock->ops`, allocates one sock from the TCP operations and stores the protocol in it;
for every type whose `SOCK_STREAM` bit is clear it returns 1, allocates no sock and
leaves the socket, `sock->ops` included, unchanged.  Nothing is said of other protocols
on a stream type, nor of the remaining types. -/
theorem inet_create_spec (sk_alloc : net_ops_id → Int → sock) (s : socket) (protocol : Int) :
    ((s.type = SOCK_STREAM ∨ s.type = SOCK_STREAM + SOCK_NONBLOCK ∨
        s.type = SOCK_STREAM + SOCK_CLOEXEC ∨
        s.type = SOCK_STREAM + SOCK_NONBLOCK + SOCK_CLOEXEC) ∧
      (protocol = 0 ∨ protocol = IPPROTO_TCP) →
        inet_create sk_alloc s protocol =
          { rc := 0,
            sock := { s with
              ops := some sock_ops.inet_stream_ops,
              sk := some { sk_alloc net_ops_id.tcp_ops protocol with protocol := protocol } },
            calls := [Call.sk_alloc net_ops_id.tcp_ops protocol, Call.sock_init_data] }) ∧
    (Int.land SOCK_STREAM s.type = 0 →
        inet_create sk_alloc s protocol = { rc := 1, sock := s, calls := [] } ∧
        (inet_create sk_alloc s protocol).rc ≠ 0 ∧
        (inet_create sk_alloc s protocol).sock.ops = s.ops ∧
        (inet_create sk_alloc s protocol).sock.sk = s.sk) := by
  refine ⟨?_, ?_⟩
  · rintro ⟨ht, -⟩
    have hbit : Int.land SOCK_STREAM s.type ≠ 0 := by
      rcases ht with h | h | h | h <;> rw [h] <;> decide
    simp [inet_create, inet_ops, INET_OPS, sock_init_data, hbit]
  · intro h
    have hrun : inet_create sk_alloc s protocol = { rc := 1, sock := s, calls := [] } := by
      simp [inet_create, inet_ops, INET_OPS, h]
    rw [hrun]
    exact ⟨rfl, by simp, rfl, rfl⟩

/-- Witness for C10: a `SOCK_STREAM` socket created with `IPPROTO_TCP` gets the stream
operations and a freshly allocated sock that records the protocol. -/
theorem inet_create_spec_witness :
    inet_create sample_sk_alloc (sample_socket SS_UNCONNECTED none) IPPROTO_TCP =
      { rc := 0,
        sock := { sample_socket SS_UNCONNECTED none with
          ops := some sock_ops.inet_stream_ops,
          sk := some { sample_sk_alloc net_ops_id.tcp_ops IPPROTO_TCP with
                       protocol := IPPROTO_TCP } },
        calls := [Call.sk_alloc net_ops_id.tcp_ops IPPROTO_TCP, Call.sock_init_data] } :=
  (inet_create_spec sample_sk_alloc (sample_socket SS_UNCONNECTED none) IPPROTO_TCP).1
    ⟨Or.inl rfl, Or.inr rfl⟩

/-! ## C11: `transmit_lvlip` -/

/-- C11: for every request and every reply, `transmit_lvlip` returns `-1` when the
reply's type or pid differs from the request's and the reply's `rc` otherwise; `errno`
becomes the reply's `err` exactly when type and pid match and `rc = -1`, and keeps its
value in every other case (a matching reply with `rc < -1` included); the request is
the one message written to the channel. -/
theorem transmit_lvlip_spec {σ : Type} (H : Host σ) (st : Shim σ) (lvlfd : Int)
    (msg : ipc_msg) :
    (transmit_lvlip H st lvlfd msg).1
      = (if (transmit_response H st lvlfd msg).type ≠ msg.type ∨
            (transmit_response H st lvlfd msg).pid ≠ msg.pid
         then -1 else (transmit_response H st lvlfd msg).rc) ∧
    (transmit_lvlip H st lvlfd msg).2.errno
      = (if (transmit_response H st lvlfd msg).type = msg.type ∧
            (transmit_response H st lvlfd msg).pid = msg.pid ∧
            (transmit_response H st lvlfd msg).rc = -1
         then (transmit_response H st lvlfd msg).err else st.errno) ∧
    ((transmit_response H st lvlfd msg).type = msg.type ∧
        (transmit_response H st lvlfd msg).pid = msg.pid ∧
        (transmit_response H st lvlfd msg).rc < -1 →
      (transmit_lvlip H st lvlfd msg).1 = (transmit_response H st lvlfd msg).rc ∧
      (transmit_lvlip H st lvlfd msg).2.errno = st.errno) ∧
    (transmit_lvlip H st lvlfd msg).2.ipc_sent = st.ipc_sent ++ [(lvlfd, msg)] ∧
    (transmit_lvlip H st lvlfd msg).2.lvlip_socks = st.lvlip_socks ∧
    (transmit_lvlip H st lvlfd msg).2.lvlip_socks_count = st.lvlip_socks_count := by
  simp only [transmit_response, transmit_lvlip]
  generalize (H.ipc_read (H.ipc_write st.host lvlfd msg).2 lvlfd RCBUF_LEN) = r
  by_cases ht : r.1.2.type = msg.type <;> by_cases hp : r.1.2.pid = msg.pid <;>
    by_cases hrc : r.1.2.rc = -1 <;> simp [ht, hp, hrc]


/-! ## C12: calls on a descriptor that lvl-ip does not manage -/

theorem lvlip_walk_null_iff (l : List lvlip_sock) (fd : Int) :
    lvlip_walk l fd = sock_ptr.NULL ↔ ∀ s ∈ l, s.freed = false ∧ s.fd ≠ fd := by
  induction l with
  | nil => simp [lvlip_walk]
  | cons x xs ih =>
    by_cases hf : x.freed = true
    · simp [lvlip_walk, hf]
    · by_cases hx : x.fd = fd
      · simp [lvlip_walk, hf, hx]
      · simp [lvlip_walk, hf, hx, ih]

/-- The lookup `lvlip_get_sock` returns `NULL` exactly when no entry has that fd (and
the walk met no freed node). -/
theorem lvlip_get_sock_null_iff {σ : Type} (st : Shim σ) (fd : Int) :
    lvlip_get_sock st fd = sock_ptr.NULL ↔
      ∀ s ∈ st.lvlip_socks, s.freed = false ∧ s.fd ≠ fd :=
  lvlip_walk_null_iff st.lvlip_socks fd

/-- C12: when `lvlip_get_sock` returns `NULL` for the descriptor (no entry of the list
has that fd), each of `close`, `connect`, `write`, `read`, `sendto`, `recvfrom`,
`setsockopt`, `getsockopt` and `fcntl` returns the result of the corresponding host
function on the same arguments, and the state afterwards is the state before with the
host advanced by that one host call: no IPC message is sent and the list of lvl-ip
sockets, its count and `errno` are as before. -/
theorem unmanaged_fd_passthrough {σ : Type} (H : Host σ) (st : Shim σ) (fd : Int)
    (h : lvlip_get_sock st fd = sock_ptr.NULL) :
    (∀ s ∈ st.lvlip_socks, s.fd ≠ fd) ∧
    close H st fd
      = some ((H._close st.host fd).1, { st with host := (H._close st.host fd).2 }) ∧
    (∀ (addr : sockaddr) (addrlen : Int),
      connect H st fd addr addrlen
        = some ((H._connect st.host fd addr addrlen).1,
                { st with host := (H._connect st.host fd addr addrlen).2 })) ∧
    (∀ (buf : List Nat) (len : Nat),
      write H st fd buf len
        = some ((H._write st.host fd buf len).1,
                { st with host := (H._write st.host fd buf len).2 })) ∧
    (∀ (buf : List Nat) (len : Nat),
      read H st fd buf len
        = some ((H._read st.host fd buf len).1,
                { st with host := (H._read st.host fd buf len).2 })) ∧
    (∀ (buf : List Nat) (len : Nat) (flags : Int) (dest_addr : Option sockaddr)
        (dest_len : Int),
      sendto H st fd buf len flags dest_addr dest_len
        = some ((H._sendto st.host fd buf len flags dest_addr dest_len).1,
                { st with
                  host := (H._sendto st.host fd buf len flags dest_addr dest_len).2 })) ∧
    (∀ (buf : List Nat) (len : Nat) (flags : Int) (address : Option sockaddr)
        (addrlen : Option Int),
      recvfrom H st fd buf len flags address addrlen
        = some ((H._recvfrom st.host fd buf len flags address addrlen).1,
                { st with
                  host := (H._recvfrom st.host fd buf len flags address addrlen).2 })) ∧
    (∀ (level optname : Int) (optval : List Nat) (optlen : Int),
      setsockopt H st fd level optname optval optlen
        = some ((H._setsockopt st.host fd level optname optval optlen).1,
                { st with
                  host := (H._setsockopt st.host fd level optname optval optlen).2 })) ∧
    (∀ (level optname : Int) (optval : List Nat) (optlen : Int),
      getsockopt H st fd level optname optval optlen
        = some ((H._getsockopt st.host fd level optname optval optlen).1,
                { st with
                  host := (H._getsockopt st.host fd level optname optval optlen).2 })) ∧
    (∀ (cmd arg : Int),
      fcntl H st fd cmd arg
        = some ((H._fcntl st.host fd cmd arg).1,
                { st with host := (H._fcntl st.host fd cmd arg).2 })) := by
  refine ⟨fun s hs => ((lvlip_get_sock_null_iff st fd).mp h s hs).2,
    ?_, ?_, ?_, ?_, ?_, ?_, ?_, ?_, ?_⟩
  · simp only [close, h]
  · intro addr addrlen
    simp only [connect, h]
  · intro buf len
    simp only [write, h]
  · intro buf len
    simp only [read, h]
  · intro buf len flags dest_addr dest_len
    simp only [sendto, h]
  · intro buf len flags address addrlen
    simp only [recvfrom, h]
  · intro level optname optval optlen
    simp only [setsockopt, h]
  · intro level optname optval optlen
    simp only [getsockopt, h]
  · intro cmd arg
    simp only [fcntl, h]

/-- Witness for C12: the sample shim manages 4097 only, so `close(7)` is the host's
`close(7)` and the shim's own state is as before. -/
theorem unmanaged_fd_passthrough_witness :
    close sample_host sample_shim 7
      = some ((sample_host._close sample_shim.host 7).1,
              { sample_shim with host := (sample_host._close sample_shim.host 7).2 }) :=
  (unmanaged_fd_passthrough sample_host sample_shim 7 (by decide)).2.1

/-! ## C13: the descriptor after `close` -/

/-- The function `transmit_lvlip` does not touch the list of lvl-ip sockets. -/
theorem transmit_lvlip_keeps_socks {σ : Type} (H : Host σ) (st : Shim σ) (lvlfd : Int)
    (msg : ipc_msg) :
    (transmit_lvlip H st lvlfd msg).2.lvlip_socks = st.lvlip_socks ∧
    (transmit_lvlip H st lvlfd msg).2.lvlip_socks_count = st.lvlip_socks_count := by
  simp only [transmit_lvlip]
  split_ifs <;> exact ⟨rfl, rfl⟩

/-- The function `close` never unlinks an entry: whenever it returns, the list of lvl-ip
sockets, its count and therefore every lookup are the same after the call as before. -/
theorem close_keeps_socks {σ : Type} (H : Host σ) (st : Shim σ) (fd : Int)
    (r : Int × Shim σ) (hrun : close H st fd = some r) :
    r.2.lvlip_socks = st.lvlip_socks ∧
    r.2.lvlip_socks_count = st.lvlip_socks_count ∧
    ∀ fd2 : Int, lvlip_get_sock r.2 fd2 = lvlip_get_sock st fd2 := by
  have hboth : r.2.lvlip_socks = st.lvlip_socks ∧
      r.2.lvlip_socks_count = st.lvlip_socks_count := by
    cases hs : lvlip_get_sock st fd with
    | undefined => simp [close, hs] at hrun
    | NULL =>
      simp only [close, hs, Option.some.injEq] at hrun
      subst hrun
      exact ⟨rfl, rfl⟩
    | found sock =>
      simp only [close, hs, free_socket, Option.some.injEq] at hrun
      subst hrun
      exact transmit_lvlip_keeps_socks H st sock.lvlfd _
  refine ⟨hboth.1, hboth.2, fun fd2 => ?_⟩
  simp only [lvlip_get_sock, hboth.1]

/-- C13 fails on the code: `close` sends `IPC_CLOSE` and closes the channel but leaves
the entry in `lvlip_socks`.  With descriptor 4097 managed over channel 3, `close(4097)`
returns 0 and has the host close descriptor 3, yet `lvlip_get_sock(4097)` still returns
the entry, and a later `read(4097)` is written to channel 3 instead of going to the
host's `read`. -/
theorem close_leaves_fd_managed :
    lvlip_get_sock closing_shim 4097 = sock_ptr.found { lvlfd := 3, fd := 4097 } ∧
    (close closing_host closing_shim 4097).map (fun r => r.1) = some 0 ∧
    (close closing_host closing_shim 4097).map (fun r => r.2.host) = some [3] ∧
    (close closing_host closing_shim 4097).map (fun r => lvlip_get_sock r.2 4097)
      = some (sock_ptr.found { lvlfd := 3, fd := 4097 }) ∧
    ((close closing_host closing_shim 4097).bind
        (fun r => read closing_host r.2 4097 [0, 0, 0, 0] 4)).map (fun out => out.2.ipc_sent)
      = some [(3, { type := IPC_CLOSE, pid := 42, data := ipc_payload.ipc_close 4097 }),
              (3, { type := IPC_READ, pid := 42, data := ipc_payload.ipc_read 4097 4 })] := by
  decide

end LevelIp
